import Mathlib

/-!
# Verification of the wiki_gpt retrieval-and-ranking pipeline

A shallow embedding of the search core of the `wiki_gpt` backend
(`backend/qdrant_utils.py`, `backend/main.py`, `backend/models.py`,
`backend/schemas.py`) together with proofs about its behaviour.

Modelling conventions:
* Python strings are Lean `String`s, floats are `ℚ` (scores are only
  compared, never rounded), UUID values are their string form.
* The relational store is a list of `Article` records in storage order;
  a SQLAlchemy `query(...).filter(...).all()` call is modelled as a
  `List.filter` over that list (the SQL result order is not specified by
  the database; the model fixes it as storage order, which is one
  legitimate realisation).
* Network calls (Qdrant similarity search, Yandex embedding and
  completion endpoints) are modelled by passing the observable outcome
  of the call as an explicit argument: the Qdrant query by the hit list
  it returned, an HTTP request by a sum type of transport error versus
  a response with status and extracted body.
* Python truthiness of a string/list is emptiness, `dict` lookup built
  by comprehension is `List.find?` over the reversed list (later keys
  overwrite earlier ones), `str.split()` splits on whitespace runs and
  drops empty tokens, `str.strip()` trims whitespace at both ends.
  These string helpers are written as structural recursion over the
  character list so that every definition evaluates by kernel reduction.
-/

/-- `VECTOR_SIZE` from `qdrant_utils.py`. -/
def VECTOR_SIZE : Nat := 256

/-- `ArticleSearchHit` from `backend/schemas.py`. -/
structure ArticleSearchHit where
  id : String
  title : String
  content : String
  score : ℚ
  tags : List String
  group_id : Option String
deriving DecidableEq

/-- `Article` ORM model from `backend/models.py` (the columns search reads). -/
structure Article where
  id : String
  title : String
  content : String
  tags : String
  group_id : Option String
  team_id : Option String
  is_deleted : Bool
deriving DecidableEq

/-- `ArticleGroup` ORM model from `backend/models.py` (the columns search reads). -/
structure ArticleGroup where
  id : String
  prompt_template : Option String
deriving DecidableEq

/-- `Team` ORM model from `backend/models.py` (the columns search reads). -/
structure Team where
  id : String
  name : String
  llm_model : String
  base_prompt : String
deriving DecidableEq

/-- `DEFAULT_BASE_PROMPT` from `backend/models.py`, the default value of
`Team.base_prompt`. -/
def DEFAULT_BASE_PROMPT : String :=
  "Сделай краткое резюме ответа на запрос, опираясь только на выдержки."

/-- Split a character list at every character satisfying `p`, keeping empty
segments (the semantics of Python `str.split(sep)` for a one-character
separator, and the segment structure underlying `str.split()`). -/
def splitBy (p : Char → Bool) : List Char → List (List Char)
  | [] => [[]]
  | c :: cs =>
    match splitBy p cs with
    | [] => if p c then [[], []] else [[c]]
    | g :: gs => if p c then [] :: g :: gs else (c :: g) :: gs

/-- Drop the leading characters satisfying `p`. -/
def dropLeading (p : Char → Bool) : List Char → List Char
  | [] => []
  | c :: cs => if p c then dropLeading p cs else c :: cs

/-- Python `text.split()`: split on whitespace runs, dropping empty tokens. -/
def pySplit (s : String) : List String :=
  ((splitBy Char.isWhitespace s.data).map String.mk).filter (fun t => t ≠ "")

/-- Python `str.strip()`: remove whitespace at both ends. -/
def pyStrip (s : String) : String :=
  String.mk
    ((dropLeading Char.isWhitespace
      (dropLeading Char.isWhitespace s.data).reverse).reverse)

/-- Python `sep.join(parts)`. -/
def pyJoin (sep : String) : List String → String
  | [] => ""
  | [s] => s
  | s :: rest => s ++ sep ++ pyJoin sep rest

/-- Python `s[:n]` on a string (slicing by code points). -/
def pyTake (n : Nat) (s : String) : String :=
  String.mk (s.data.take n)

/-- `a.tags.split(",") if a.tags else []` from `search_vector`. -/
def splitTags (s : String) : List String :=
  if s = "" then []
  else (splitBy (fun c => c = ',') s.data).map String.mk

/-- The `scores` dict of `search_vector`: `{str(hit.id): hit.score for hit in hits}`,
looked up by id (later entries of the comprehension overwrite earlier ones). -/
def hitScore (idxHits : List (String × ℚ)) (i : String) : Option ℚ :=
  (idxHits.reverse.find? (fun p => p.1 == i)).map (fun p => p.2)

/-- `search_vector` from `backend/qdrant_utils.py`.  The Qdrant call
(`client.search`, including its optional server-side `group_id` filter and
`limit`) is external; it is represented by the `(id, score)` list `idxHits`
it returned.  The SQLAlchemy query keeps the articles whose id is among the
hit ids, that are not soft-deleted and that belong to `team_id`, in store
order; each surviving article is rendered as an `ArticleSearchHit` carrying
the score of the index hit with the same id. -/
def search_vector (db : List Article) (team_id : String)
    (idxHits : List (String × ℚ)) : List ArticleSearchHit :=
  let ids := idxHits.map (fun p => p.1)
  let articles := db.filter
    (fun a => ids.contains a.id && !a.is_deleted && a.team_id == some team_id)
  articles.filterMap (fun a =>
    (hitScore idxHits a.id).map (fun sc =>
      { id := a.id, title := a.title, content := a.content, score := sc,
        tags := splitTags a.tags, group_id := a.group_id }))

/-- C1: every hit returned by `search_vector` comes from an article of the
caller's team that is not soft-deleted, whatever ids the vector index
returned. -/
theorem search_vector_tenant_isolation
    (db : List Article) (team_id : String) (idxHits : List (String × ℚ))
    (h : ArticleSearchHit) (hmem : h ∈ search_vector db team_id idxHits) :
    ∃ a ∈ db, a.id = h.id ∧ a.team_id = some team_id ∧ a.is_deleted = false := by
  unfold search_vector at hmem
  simp only [List.mem_filterMap, List.mem_filter, Option.map_eq_some'] at hmem
  obtain ⟨a, ⟨hadb, hcond⟩, sc, _, hhit⟩ := hmem
  simp only [Bool.and_eq_true, Bool.not_eq_true', beq_iff_eq] at hcond
  subst hhit
  exact ⟨a, hadb, rfl, hcond.2, hcond.1.2⟩

/-- Concrete instantiation data for the theorems below. -/
def exArticle1 : Article :=
  { id := "a1", title := "Onboarding", content := "welcome", tags := "hr",
    group_id := none, team_id := some "t1", is_deleted := false }

/-- The hit `search_vector` produces for `exArticle1` at score 1. -/
def exHit1 : ArticleSearchHit :=
  { id := "a1", title := "Onboarding", content := "welcome", score := 1,
    tags := ["hr"], group_id := none }

theorem search_vector_tenant_isolation_witness :
    ∃ a ∈ [exArticle1], a.id = exHit1.id ∧ a.team_id = some "t1" ∧
      a.is_deleted = false :=
  search_vector_tenant_isolation [exArticle1] "t1" [("a1", 1)] exHit1 (by decide)

/-- Helper: mapping ids over the filterMap step of `search_vector` yields a
sublist of the article ids, in article order. -/
theorem filterMap_hit_id_sublist (idxHits : List (String × ℚ))
    (l : List Article) :
    ((l.filterMap (fun a =>
        (hitScore idxHits a.id).map (fun sc =>
          ({ id := a.id, title := a.title, content := a.content, score := sc,
             tags := splitTags a.tags,
             group_id := a.group_id } : ArticleSearchHit)))).map
       (fun h => h.id)).Sublist (l.map (fun a => a.id)) := by
  induction l with
  | nil => simp
  | cons a t ih =>
    rw [List.filterMap_cons]
    cases hsc : hitScore idxHits a.id with
    | none =>
      simp only [Option.map_none', List.map_cons]
      exact ih.trans (List.sublist_cons_self _ _)
    | some sc =>
      simp only [Option.map_some', List.map_cons]
      exact ih.cons₂ _

/-- C3 (amended): the hits returned by `search_vector` appear in the order
the relational store returns the surviving articles (store order in this
model), not in the order of the vector-index hit list. -/
theorem search_vector_order_follows_store
    (db : List Article) (team_id : String) (idxHits : List (String × ℚ)) :
    ((search_vector db team_id idxHits).map (fun h => h.id)).Sublist
      (db.map (fun a => a.id)) := by
  unfold search_vector
  exact (filterMap_hit_id_sublist idxHits _).trans
    ((List.filter_sublist db).map _)

/-- A second article of the same team, stored after `exArticle1`. -/
def exArticle2 : Article :=
  { id := "a2", title := "Benefits", content := "insurance", tags := "hr",
    group_id := none, team_id := some "t1", is_deleted := false }

/-- C3 (counterexample): with articles stored in the order `a1, a2` and the
vector index ranking `a2` above `a1`, `search_vector` returns `a1` before
`a2` — the output order does not follow the surviving subset of the input
hit order. -/
theorem search_vector_order_counterexample :
    ¬ ((search_vector [exArticle1, exArticle2] "t1"
          [("a2", 2), ("a1", 1)]).map (fun h => h.id)).Sublist
        ([("a2", (2:ℚ)), ("a1", 1)].map (fun p => p.1)) := by
  intro hsub
  have : (["a1", "a2"] : List String).Sublist ["a2", "a1"] := by
    have hev : (search_vector [exArticle1, exArticle2] "t1"
        [("a2", 2), ("a1", 1)]).map (fun h => h.id) = ["a1", "a2"] := by decide
    simpa [hev] using hsub
  exact absurd this (by decide)

/-- The module-level Yandex credentials of `qdrant_utils.py`:
`configured` is the Python truthiness of
`YANDEX_OAUTH_TOKEN and YANDEX_FOLDER_ID` (both set and non-empty). -/
structure YandexCreds where
  configured : Bool
deriving DecidableEq

/-- Observable outcome of one `requests.post` call to the completion
endpoint: either the request raised (transport error / timeout), or a
response arrived with an HTTP status and, for the reranker, the text
extracted from `result.alternatives[0].message.text` — `none` when
`r.json()` raises on a malformed body, `some ""` when the alternatives
list is missing or empty. -/
inductive LLMOutcome where
  | transportError
  | reply (status : Nat) (body : Option String)
deriving DecidableEq

/-- The parsed id order of `rerank_with_llm`:
`[s.strip() for s in text.split() if s.strip() in {h.id for h in hits}]`. -/
def rerankOrder (hits : List ArticleSearchHit) (text : String) : List String :=
  ((pySplit text).map pyStrip).filter
    (fun s => (hits.map (fun h => h.id)).contains s)

/-- The `id_to_hit` dict of `rerank_with_llm`, looked up by id
(later hits overwrite earlier ones with the same id). -/
def idToHit (hits : List ArticleSearchHit) (i : String) :
    Option ArticleSearchHit :=
  hits.reverse.find? (fun h => h.id == i)

/-- `rerank_with_llm` from `backend/qdrant_utils.py`.  The prompt built from
`query`, `prompt_template` and the serialized hits, and the `model` string,
only shape the request payload; the network call is represented by
`outcome`. -/
def rerank_with_llm (creds : YandexCreds) (query : String)
    (hits : List ArticleSearchHit) (prompt_template : Option String)
    (model : String) (outcome : LLMOutcome) : List ArticleSearchHit :=
  if !creds.configured || hits.isEmpty then hits
  else
    match outcome with
    | .transportError => hits
    | .reply status body =>
      if status ≠ 200 then hits
      else
        match body with
        | none => hits
        | some text =>
          let order := rerankOrder hits text
          if order.isEmpty then hits
          else order.filterMap (idToHit hits)

/-- Helper: the reranker is the identity when the credentials are not
configured. -/
theorem rerank_id_of_unconfigured (creds : YandexCreds) (query : String)
    (hits : List ArticleSearchHit) (prompt_template : Option String)
    (model : String) (outcome : LLMOutcome) (hc : creds.configured = false) :
    rerank_with_llm creds query hits prompt_template model outcome = hits := by
  unfold rerank_with_llm
  simp [hc]

/-- C4: `rerank_with_llm` returns its input unchanged whenever the provider
is unconfigured, the hit list is empty, the request raised a transport
error, the response status is not 200, the body is malformed, or the parsed
id order is empty. -/
theorem rerank_fail_open (creds : YandexCreds) (query : String)
    (hits : List ArticleSearchHit) (prompt_template : Option String)
    (model : String) (outcome : LLMOutcome)
    (h : creds.configured = false ∨ hits = [] ∨ outcome = .transportError
      ∨ (∃ status body, outcome = .reply status body ∧ status ≠ 200)
      ∨ (∃ status, outcome = .reply status none)
      ∨ (∃ text, outcome = .reply 200 (some text)
          ∧ rerankOrder hits text = [])) :
    rerank_with_llm creds query hits prompt_template model outcome = hits := by
  rcases h with hc | hh | ht | ⟨s, b, rfl, hs⟩ | ⟨s, rfl⟩ | ⟨t, rfl, ho⟩
  · exact rerank_id_of_unconfigured _ _ _ _ _ _ hc
  · subst hh; unfold rerank_with_llm; simp
  · subst ht; unfold rerank_with_llm
    by_cases hc : creds.configured <;> simp [hc]
  · unfold rerank_with_llm
    by_cases hc : creds.configured <;> simp [hc, hs]
  · unfold rerank_with_llm
    by_cases hc : creds.configured <;> by_cases h200 : s = 200 <;>
      simp [hc, h200]
  · unfold rerank_with_llm
    by_cases hc : creds.configured <;> simp [hc, ho]

theorem rerank_fail_open_witness :
    rerank_with_llm ⟨false⟩ "q" [exHit1] none "yandexgpt-lite"
      .transportError = [exHit1] :=
  rerank_fail_open ⟨false⟩ "q" [exHit1] none "yandexgpt-lite"
    .transportError (Or.inl rfl)

/-- Helper: a successful `find?` in `id_to_hit` returns a hit of the list
whose id is the looked-up key. -/
theorem idToHit_mem_id {hits : List ArticleSearchHit} {i : String}
    {h : ArticleSearchHit} (hf : idToHit hits i = some h) :
    h ∈ hits ∧ h.id = i := by
  unfold idToHit at hf
  refine ⟨List.mem_reverse.mp (List.mem_of_find?_eq_some hf), ?_⟩
  have hp := List.find?_some hf
  simpa using hp

/-- Helper: when every id of `L` names some hit, mapping ids over
`L.filterMap (idToHit hits)` gives back `L`. -/
theorem map_id_filterMap_idToHit (hits : List ArticleSearchHit)
    (L : List String)
    (hL : ∀ i ∈ L, ((hits.map (fun h => h.id)).contains i) = true) :
    ((L.filterMap (idToHit hits)).map (fun h => h.id)) = L := by
  induction L with
  | nil => simp
  | cons i t ih =>
    have hi := hL i (List.mem_cons_self i t)
    have hex : ∃ h ∈ hits, h.id = i := by
      simpa [List.contains_iff_exists_mem_beq, beq_iff_eq] using hi
    obtain ⟨h0, hh0, hid⟩ := hex
    have hsome : (idToHit hits i).isSome := by
      unfold idToHit
      rw [List.find?_isSome]
      exact ⟨h0, List.mem_reverse.mpr hh0, by simp [hid]⟩
    obtain ⟨h1, hh1⟩ := Option.isSome_iff_exists.mp hsome
    rw [List.filterMap_cons, hh1]
    simp only [List.map_cons, (idToHit_mem_id hh1).2]
    rw [ih (fun j hj => hL j (List.mem_cons_of_mem i hj))]

/-- C10: on the success path with at least one matching token, the
reranker returns exactly one hit per whitespace token of the response that
names a candidate id, in token order (duplicated mentions yield duplicated
hits), and every returned hit is one of the input hits. -/
theorem rerank_one_hit_per_mention (creds : YandexCreds) (query : String)
    (hits : List ArticleSearchHit) (prompt_template : Option String)
    (model : String) (text : String) (hc : creds.configured = true)
    (hne : hits ≠ []) (ho : rerankOrder hits text ≠ []) :
    ((rerank_with_llm creds query hits prompt_template model
        (.reply 200 (some text))).map (fun h => h.id) = rerankOrder hits text)
    ∧ ∀ h ∈ rerank_with_llm creds query hits prompt_template model
        (.reply 200 (some text)), h ∈ hits := by
  have hred : rerank_with_llm creds query hits prompt_template model
      (.reply 200 (some text)) = (rerankOrder hits text).filterMap (idToHit hits) := by
    unfold rerank_with_llm
    simp [hc, hne, List.isEmpty_iff, ho]
  constructor
  · rw [hred]
    exact map_id_filterMap_idToHit hits (rerankOrder hits text)
      (fun i hi => List.of_mem_filter hi)
  · intro h hmem
    rw [hred] at hmem
    obtain ⟨i, _, hf⟩ := List.mem_filterMap.mp hmem
    exact (idToHit_mem_id hf).1

/-- The hit `search_vector` would produce for `exArticle2` at score 2. -/
def exHit2 : ArticleSearchHit :=
  { id := "a2", title := "Benefits", content := "insurance", score := 2,
    tags := ["hr"], group_id := none }

theorem rerank_one_hit_per_mention_witness :
    ((rerank_with_llm ⟨true⟩ "q" [exHit1, exHit2] none "yandexgpt-lite"
        (.reply 200 (some "a2 a1 a2"))).map (fun h => h.id)
      = rerankOrder [exHit1, exHit2] "a2 a1 a2")
    ∧ ∀ h ∈ rerank_with_llm ⟨true⟩ "q" [exHit1, exHit2] none "yandexgpt-lite"
        (.reply 200 (some "a2 a1 a2")), h ∈ [exHit1, exHit2] :=
  rerank_one_hit_per_mention ⟨true⟩ "q" [exHit1, exHit2] none "yandexgpt-lite"
    "a2 a1 a2" rfl (by decide) (by decide)

/-- `resolve_prompt` from `backend/main.py`.  `default_prompt` is the
module-level `DEFAULT_GROUP_PROMPT` constant
(`os.getenv("DEFAULT_GROUP_PROMPT", "You are a helpful assistant")`),
passed as a parameter because its value comes from the environment.
`if group and group.prompt_template:` requires the group to exist and its
template to be non-None and non-empty.  The team's `base_prompt` column is
not an input of this function. -/
def resolve_prompt (groups : List ArticleGroup) (default_prompt : String)
    (group_id : Option String) : String :=
  match group_id with
  | none => default_prompt
  | some gid =>
    match groups.find? (fun g => g.id == gid) with
    | none => default_prompt
    | some g =>
      match g.prompt_template with
      | none => default_prompt
      | some t => if t = "" then default_prompt else t

/-- A team whose `base_prompt` is the model default from
`backend/models.py`. -/
def exTeam : Team :=
  { id := "t1", name := "Team 1", llm_model := "yandexgpt-lite",
    base_prompt := DEFAULT_BASE_PROMPT }

/-- C8 (counterexample): for a request without `group_id` issued by a
member of `exTeam` (whose `base_prompt` is the stock default), the
effective prompt computed by the code is the `DEFAULT_GROUP_PROMPT`
constant, not the team's `base_prompt` as the claim states. -/
theorem resolve_prompt_counterexample :
    resolve_prompt [] "You are a helpful assistant" none
      ≠ exTeam.base_prompt := by decide

/-- C8 (amended): the effective prompt is the group's `prompt_template`
when `group_id` names a group whose template is set and non-empty, and the
`DEFAULT_GROUP_PROMPT` constant otherwise; the team's `base_prompt` is
never consulted (it is not an input of `resolve_prompt`). -/
theorem resolve_prompt_chain (groups : List ArticleGroup)
    (default_prompt : String) (group_id : Option String) :
    resolve_prompt groups default_prompt group_id = default_prompt
    ∨ ∃ gid g t, group_id = some gid
        ∧ groups.find? (fun g2 => g2.id == gid) = some g
        ∧ g.prompt_template = some t ∧ t ≠ ""
        ∧ resolve_prompt groups default_prompt group_id = t := by
  cases group_id with
  | none => exact Or.inl rfl
  | some gid =>
    cases hg : groups.find? (fun g => g.id == gid) with
    | none => exact Or.inl (by simp [resolve_prompt, hg])
    | some g =>
      cases ht : g.prompt_template with
      | none => exact Or.inl (by simp [resolve_prompt, hg, ht])
      | some t =>
        by_cases he : t = ""
        · exact Or.inl (by simp [resolve_prompt, hg, ht, he])
        · exact Or.inr ⟨gid, g, t, rfl, hg, ht, he,
            by simp [resolve_prompt, hg, ht, he]⟩

/-- `ArticleSearchQuery` from `backend/schemas.py`, the body of
`POST /articles/search/`.  Its only fields are `q`, `tags` and `group_id`;
pydantic ignores unknown keys such as `top_k` in the request body. -/
structure ArticleSearchQuery where
  q : String
  tags : Option (List String)
  group_id : Option String
deriving DecidableEq

/-- Modelled from the spec: `SearchAnswerRequest` is imported by
`backend/main.py` from `schemas`, but its definition is not under `src/`.
Spec section 6 gives the `POST /search/answer` body as
`{q: string, group_id?: string, tags?: [string], top_k?: int}`; `top_k` is
forwarded as the Qdrant `limit` (external to this model). -/
structure SearchAnswerRequest where
  q : String
  tags : Option (List String)
  group_id : Option String
  top_k : Option Nat
deriving DecidableEq

/-- The in-endpoint tag filter of both search endpoints:
`if query.tags: required = set(query.tags); hits = [h for h in hits if
required.issubset(set(h.tags))]`. -/
def tagFilter (tags : Option (List String))
    (hits : List ArticleSearchHit) : List ArticleSearchHit :=
  match tags with
  | none => hits
  | some ts =>
    if ts.isEmpty then hits
    else hits.filter (fun h => ts.all (fun t => h.tags.contains t))

/-- The sort key of `hits.sort(key=lambda h: h.score, reverse=True)`:
`a` may come before `b` iff `b.score ≤ a.score`. -/
def scoreDesc (a b : ArticleSearchHit) : Prop := b.score ≤ a.score

instance : DecidableRel scoreDesc :=
  fun a b => inferInstanceAs (Decidable (b.score ≤ a.score))

instance : IsTotal ArticleSearchHit scoreDesc :=
  ⟨fun a b => le_total b.score a.score⟩

instance : IsTrans ArticleSearchHit scoreDesc :=
  ⟨fun _ _ _ hab hbc => le_trans hbc hab⟩

/-- `hits.sort(key=lambda h: h.score, reverse=True)` from `backend/main.py`.
Python's sort is stable; a stable descending sort by score is extensionally
the insertion sort with `scoreDesc` (which inserts each element before the
first element of equal or smaller score, preserving the relative order of
equal-score elements). -/
def sortByScoreDesc (hits : List ArticleSearchHit) : List ArticleSearchHit :=
  hits.insertionSort scoreDesc

/-- `search_articles` from `backend/main.py` (`POST /articles/search/`).
`embed_text` only produces the query vector sent to Qdrant, and the Qdrant
call is external: both are represented by the hit list `idxHits` the index
returned (already group-filtered server-side when `query.group_id` is set,
with the default `limit=5`).  `team_model` is the team's `llm_model`
column with `"yandexgpt-lite"` as fallback. -/
def search_articles (db : List Article) (groups : List ArticleGroup)
    (default_prompt : String) (team_model : String) (creds : YandexCreds)
    (team_id : String) (query : ArticleSearchQuery)
    (idxHits : List (String × ℚ)) (outcome : LLMOutcome) :
    List ArticleSearchHit :=
  let hits := search_vector db team_id idxHits
  let hits := tagFilter query.tags hits
  let group_prompt := resolve_prompt groups default_prompt query.group_id
  sortByScoreDesc
    (rerank_with_llm creds query.q hits (some group_prompt) team_model outcome)

/-- The ranked hit list of `search_answer` from `backend/main.py`
(`POST /articles/search/answer`), up to and including the final score sort;
the Qdrant call (with `limit=req.top_k`) is represented by `idxHits`. -/
def search_answer_hits (db : List Article) (groups : List ArticleGroup)
    (default_prompt : String) (team_model : String) (creds : YandexCreds)
    (team_id : String) (req : SearchAnswerRequest)
    (idxHits : List (String × ℚ)) (outcome : LLMOutcome) :
    List ArticleSearchHit :=
  let hits := search_vector db team_id idxHits
  let hits := tagFilter req.tags hits
  let group_prompt := resolve_prompt groups default_prompt req.group_id
  sortByScoreDesc
    (rerank_with_llm creds req.q hits (some group_prompt) team_model outcome)

/-- Helper: the output of `sortByScoreDesc` is score-descending at every
adjacent pair. -/
theorem sortByScoreDesc_sorted (l : List ArticleSearchHit) (i : Nat)
    (hi : i + 1 < (sortByScoreDesc l).length) :
    ((sortByScoreDesc l).get ⟨i + 1, hi⟩).score
      ≤ ((sortByScoreDesc l).get ⟨i, Nat.lt_of_succ_lt hi⟩).score := by
  have hs := List.sorted_insertionSort scoreDesc l
  exact (List.pairwise_iff_get.mp hs) ⟨i, Nat.lt_of_succ_lt hi⟩ ⟨i + 1, hi⟩
    (by exact Nat.lt_succ_self i)

/-- C2: after the final sort, the result of `POST /articles/search/` and the
ranked hit list of `POST /articles/search/answer` are score-descending at
every adjacent index. -/
theorem results_sorted_by_score :
    (∀ (db : List Article) (groups : List ArticleGroup) (dp tm : String)
        (creds : YandexCreds) (team_id : String) (query : ArticleSearchQuery)
        (idxHits : List (String × ℚ)) (outcome : LLMOutcome) (i : Nat)
        (hi : i + 1 < (search_articles db groups dp tm creds team_id query
            idxHits outcome).length),
        ((search_articles db groups dp tm creds team_id query idxHits
            outcome).get ⟨i + 1, hi⟩).score
          ≤ ((search_articles db groups dp tm creds team_id query idxHits
            outcome).get ⟨i, Nat.lt_of_succ_lt hi⟩).score)
    ∧ (∀ (db : List Article) (groups : List ArticleGroup) (dp tm : String)
        (creds : YandexCreds) (team_id : String) (req : SearchAnswerRequest)
        (idxHits : List (String × ℚ)) (outcome : LLMOutcome) (i : Nat)
        (hi : i + 1 < (search_answer_hits db groups dp tm creds team_id req
            idxHits outcome).length),
        ((search_answer_hits db groups dp tm creds team_id req idxHits
            outcome).get ⟨i + 1, hi⟩).score
          ≤ ((search_answer_hits db groups dp tm creds team_id req idxHits
            outcome).get ⟨i, Nat.lt_of_succ_lt hi⟩).score) := by
  constructor
  · intro db groups dp tm creds team_id query idxHits outcome i hi
    exact sortByScoreDesc_sorted _ i hi
  · intro db groups dp tm creds team_id req idxHits outcome i hi
    exact sortByScoreDesc_sorted _ i hi

/-- A search query without tags or group, as parsed from a request body
(any `top_k` key in the body is ignored by pydantic: `ArticleSearchQuery`
has no such field). -/
def exQuery : ArticleSearchQuery :=
  { q := "onboarding", tags := none, group_id := none }

theorem results_sorted_by_score_witness :
    ((search_articles [exArticle1, exArticle2] [] "You are a helpful assistant"
        "yandexgpt-lite" ⟨false⟩ "t1" exQuery [("a2", 2), ("a1", 1)]
        .transportError).get ⟨1, by decide⟩).score
      ≤ ((search_articles [exArticle1, exArticle2] []
        "You are a helpful assistant" "yandexgpt-lite" ⟨false⟩ "t1" exQuery
        [("a2", 2), ("a1", 1)] .transportError).get ⟨0, by decide⟩).score :=
  results_sorted_by_score.1 [exArticle1, exArticle2] []
    "You are a helpful assistant" "yandexgpt-lite" ⟨false⟩ "t1" exQuery
    [("a2", 2), ("a1", 1)] .transportError 0 (by decide)

/-- C9 (counterexample): a `POST /articles/search/` body with `top_k = 1`
parses to `exQuery` — `ArticleSearchQuery` has no `top_k` field and pydantic
ignores unknown keys — so with two matching accessible articles the
endpoint returns two hits, not exactly one. -/
theorem search_articles_topk_counterexample :
    (search_articles [exArticle1, exArticle2] [] "You are a helpful assistant"
        "yandexgpt-lite" ⟨false⟩ "t1" exQuery [("a2", 2), ("a1", 1)]
        .transportError).length = 2 := by decide

/-- C9 (amended): `POST /articles/search/` applies no result cap of its
own: when the reranker is in a fail-open state the endpoint returns exactly
the accessible tag-filtered hits of the (default `limit=5`) index query. -/
theorem search_articles_no_result_cap (db : List Article)
    (groups : List ArticleGroup) (dp tm team_id : String)
    (query : ArticleSearchQuery) (idxHits : List (String × ℚ))
    (outcome : LLMOutcome) :
    (search_articles db groups dp tm ⟨false⟩ team_id query idxHits
        outcome).length
      = (tagFilter query.tags (search_vector db team_id idxHits)).length := by
  show (sortByScoreDesc (rerank_with_llm ⟨false⟩ query.q
      (tagFilter query.tags (search_vector db team_id idxHits))
      (some (resolve_prompt groups dp query.group_id)) tm outcome)).length = _
  rw [rerank_id_of_unconfigured _ _ _ _ _ _ rfl]
  exact (List.perm_insertionSort scoreDesc _).length_eq

/-- Helper: the success path of the reranker. -/
theorem rerank_success_eq (creds : YandexCreds) (query : String)
    (hits : List ArticleSearchHit) (prompt_template : Option String)
    (model : String) (text : String) (hc : creds.configured = true)
    (hne : hits ≠ []) (ho : rerankOrder hits text ≠ []) :
    rerank_with_llm creds query hits prompt_template model
        (.reply 200 (some text))
      = (rerankOrder hits text).filterMap (idToHit hits) := by
  unfold rerank_with_llm
  simp [hc, hne, List.isEmpty_iff, ho]

/-- Helper: no token matches an empty candidate list. -/
theorem rerankOrder_nil (text : String) : rerankOrder [] text = [] := by
  simp [rerankOrder]

/-- C5 (amended): hits whose ids the LLM response does not mention are
dropped from the final result as well — the final sort only reorders the
mentioned hits, so every id in the final list was mentioned. -/
theorem unmentioned_hits_dropped (db : List Article)
    (groups : List ArticleGroup) (dp tm : String) (creds : YandexCreds)
    (team_id : String) (req : SearchAnswerRequest)
    (idxHits : List (String × ℚ)) (text : String)
    (hc : creds.configured = true)
    (ho : rerankOrder (tagFilter req.tags (search_vector db team_id idxHits))
        text ≠ []) :
    ∀ h ∈ search_answer_hits db groups dp tm creds team_id req idxHits
        (.reply 200 (some text)),
      h.id ∈ rerankOrder (tagFilter req.tags (search_vector db team_id
        idxHits)) text := by
  intro h hmem
  have hne : tagFilter req.tags (search_vector db team_id idxHits) ≠ [] := by
    intro hnil
    rw [hnil, rerankOrder_nil] at ho
    exact ho rfl
  have hrw : search_answer_hits db groups dp tm creds team_id req idxHits
      (.reply 200 (some text))
      = sortByScoreDesc
          ((rerankOrder (tagFilter req.tags (search_vector db team_id
              idxHits)) text).filterMap
            (idToHit (tagFilter req.tags (search_vector db team_id
              idxHits)))) := by
    show sortByScoreDesc (rerank_with_llm creds req.q
        (tagFilter req.tags (search_vector db team_id idxHits))
        (some (resolve_prompt groups dp req.group_id)) tm
        (.reply 200 (some text))) = _
    rw [rerank_success_eq creds req.q _ _ tm text hc hne ho]
  rw [hrw] at hmem
  have hmem2 := ((List.perm_insertionSort scoreDesc _).mem_iff).mp hmem
  obtain ⟨i, hiord, hf⟩ := List.mem_filterMap.mp hmem2
  rw [(idToHit_mem_id hf).2]
  exact hiord

/-- A `/articles/search/answer` request without tags or group. -/
def exAnswerReq : SearchAnswerRequest :=
  { q := "hr", tags := none, group_id := none, top_k := some 5 }

/-- C5 (counterexample): with candidates `a1, a2` and an LLM response
mentioning only `a2`, the unmentioned hit `a1` is absent from the final
(sorted) result of `/articles/search/answer` — the final sort does not
recover it. -/
theorem unmentioned_hits_not_recovered_counterexample :
    ("a1" ∈ (tagFilter exAnswerReq.tags (search_vector
        [exArticle1, exArticle2] "t1" [("a2", 2), ("a1", 1)])).map
          (fun h => h.id))
    ∧ rerankOrder (tagFilter exAnswerReq.tags (search_vector
        [exArticle1, exArticle2] "t1" [("a2", 2), ("a1", 1)])) "a2" = ["a2"]
    ∧ "a1" ∉ (search_answer_hits [exArticle1, exArticle2] []
        "You are a helpful assistant" "yandexgpt-lite" ⟨true⟩ "t1"
        exAnswerReq [("a2", 2), ("a1", 1)]
        (.reply 200 (some "a2"))).map (fun h => h.id) := by decide

theorem unmentioned_hits_dropped_witness :
    exHit2.id ∈ rerankOrder (tagFilter exAnswerReq.tags (search_vector
      [exArticle1, exArticle2] "t1" [("a2", 2), ("a1", 1)])) "a2" :=
  unmentioned_hits_dropped [exArticle1, exArticle2] []
    "You are a helpful assistant" "yandexgpt-lite" ⟨true⟩ "t1" exAnswerReq
    [("a2", 2), ("a1", 1)] "a2" rfl (by decide) exHit2 (by decide)

/-- `_local_embed` from `backend/qdrant_utils.py`.  Python's builtin string
`hash` (runtime-dependent, randomized per process by PYTHONHASHSEED) is a
parameter; `hash(word) % VECTOR_SIZE` always lands in `[0, VECTOR_SIZE)`,
so a `Nat`-valued hash composed with `% VECTOR_SIZE` has the same image.
Each whitespace token increments one component of a zero vector of length
`VECTOR_SIZE`. -/
def _local_embed (hash : String → Nat) (text : String) : List ℚ :=
  (pySplit text).foldl
    (fun vec w =>
      vec.set (hash w % VECTOR_SIZE) (vec.getD (hash w % VECTOR_SIZE) 0 + 1))
    (List.replicate VECTOR_SIZE 0)

/-- Observable outcome of the `requests.post` call in `embed_text`:
`requestException` covers `requests.RequestException` (connection error,
timeout, malformed JSON body); otherwise a response arrived with an HTTP
status and, when the status is a success, the decoded `embedding` field. -/
inductive EmbedOutcome where
  | requestException
  | response (status : Nat) (embedding : List ℚ)
deriving DecidableEq

/-- `embed_text` from `backend/qdrant_utils.py`.  `.error` models the
`raise RuntimeError("Failed to fetch embedding from Yandex API")` path.
`response.raise_for_status()` raises `requests.HTTPError` exactly for
statuses 400–599, always with the response attached, so the
`e.response is not None` guard is true on that path. -/
def embed_text (creds : YandexCreds) (hash : String → Nat) (text : String)
    (outcome : EmbedOutcome) : Except String (List ℚ) :=
  if !creds.configured then .ok (_local_embed hash text)
  else
    match outcome with
    | .requestException => .ok (_local_embed hash text)
    | .response status embedding =>
      if 400 ≤ status ∧ status ≤ 599 then
        if status = 401 then .ok (_local_embed hash text)
        else .error "Failed to fetch embedding from Yandex API"
      else .ok embedding

/-- C6: `embed_text` uses the deterministic local fallback, raising no
error, exactly when credentials are unconfigured (then independently of any
network outcome — no call is attempted), on a network failure, or on a 401;
any other HTTP error status is propagated as an error, and a success status
returns the provider's embedding. -/
theorem embed_text_failure_taxonomy (creds : YandexCreds)
    (hash : String → Nat) (text : String) (outcome : EmbedOutcome) :
    (creds.configured = false →
      ∀ outcome2, embed_text creds hash text outcome2
        = .ok (_local_embed hash text))
    ∧ (creds.configured = true → outcome = .requestException →
        embed_text creds hash text outcome = .ok (_local_embed hash text))
    ∧ (creds.configured = true → ∀ emb, outcome = .response 401 emb →
        embed_text creds hash text outcome = .ok (_local_embed hash text))
    ∧ (creds.configured = true → ∀ s emb, outcome = .response s emb →
        400 ≤ s → s ≤ 599 → s ≠ 401 →
        embed_text creds hash text outcome
          = .error "Failed to fetch embedding from Yandex API")
    ∧ (creds.configured = true → ∀ s emb, outcome = .response s emb →
        s < 400 → embed_text creds hash text outcome = .ok emb) := by
  refine ⟨?_, ?_, ?_, ?_, ?_⟩
  · intro hc outcome2
    unfold embed_text
    simp [hc]
  · intro hc ho
    subst ho
    unfold embed_text
    simp [hc]
  · intro hc emb ho
    subst ho
    unfold embed_text
    simp [hc]
  · intro hc s emb ho h400 h599 h401
    subst ho
    unfold embed_text
    simp [hc, h400, h599, h401]
  · intro hc s emb ho hs
    subst ho
    unfold embed_text
    simp [hc, Nat.not_le_of_lt hs]

theorem embed_text_failure_taxonomy_witness :
    embed_text ⟨false⟩ (fun _ => 0) "query text" (.response 500 [])
      = .ok (_local_embed (fun _ => 0) "query text") :=
  (embed_text_failure_taxonomy ⟨false⟩ (fun _ => 0) "query text"
    (.response 500 [])).1 rfl (.response 500 [])

/-- The snippet truncation of `search_answer`:
`ArticleSearchHit(**{**h.dict(), "content": snippet})` with
`snippet = h.content[:200]`. -/
def snippetOf (h : ArticleSearchHit) : ArticleSearchHit :=
  { h with content := pyTake 200 h.content }

/-- The context block of `search_answer`:
`"\n\n".join(f"[{title}](wiki://{id})\n{content}" per snippet)`. -/
def answerContext (snippets : List ArticleSearchHit) : String :=
  pyJoin "\n\n"
    (snippets.map (fun h =>
      "[" ++ h.title ++ "](wiki://" ++ h.id ++ ")\n" ++ h.content))

/-- The `answer` value after the LLM block of `search_answer`: the call is
attempted only when the context is non-empty and credentials are
configured; a transport error, a non-200 status, or a missing/unreadable
alternatives field leaves `answer` as `""`. -/
def llmAnswer (creds : YandexCreds) (context : String)
    (outcome : LLMOutcome) : String :=
  if context ≠ "" ∧ creds.configured = true then
    match outcome with
    | .transportError => ""
    | .reply status body => if status = 200 then body.getD "" else ""
  else ""

/-- The `if not answer:` fallback block of `search_answer`: a deterministic
extractive summary when snippets exist, a fixed nothing-found message
otherwise. -/
def answerBody (creds : YandexCreds) (snippets : List ArticleSearchHit)
    (outcome : LLMOutcome) : String :=
  let fromLLM := llmAnswer creds (answerContext snippets) outcome
  if fromLLM = "" then
    if !snippets.isEmpty then
      "На основе найденных статей:\n"
        ++ pyJoin "\n" (snippets.map (fun h => h.title ++ ": " ++ h.content))
    else "Не удалось найти релевантные статьи."
  else fromLLM

/-- One reference line of `search_answer`: `f"- [{h.title}](wiki://{h.id})"`. -/
def refLine (h : ArticleSearchHit) : String :=
  "- [" ++ h.title ++ "](wiki://" ++ h.id ++ ")"

/-- The references block of `search_answer`: when hits exist, the answer is
`f"{answer.strip()}\n\nСсылки на статьи:\n"` followed by the joined
reference lines. -/
def attachReferences (answer : String) (hits : List ArticleSearchHit) :
    String :=
  let references := if !hits.isEmpty then hits.map refLine else []
  if !references.isEmpty then
    pyStrip answer ++ "\n\nСсылки на статьи:\n" ++ pyJoin "\n" references
  else answer

/-- The `answer` field returned by `POST /articles/search/answer`
(`search_answer` in `backend/main.py`): the body produced by the LLM or the
deterministic fallback, with the references block attached when hits
exist.  `rerankOutcome` is the completion call of the rerank stage,
`answerOutcome` the completion call of the synthesis stage. -/
def search_answer_text (db : List Article) (groups : List ArticleGroup)
    (default_prompt : String) (team_model : String) (creds : YandexCreds)
    (team_id : String) (req : SearchAnswerRequest)
    (idxHits : List (String × ℚ)) (rerankOutcome answerOutcome : LLMOutcome) :
    String :=
  attachReferences
    (answerBody creds
      ((search_answer_hits db groups default_prompt team_model creds team_id
          req idxHits rerankOutcome).map snippetOf)
      answerOutcome)
    (search_answer_hits db groups default_prompt team_model creds team_id
      req idxHits rerankOutcome)

/-- Substring containment (Python `in` on strings). -/
def containsSub (s sub : String) : Prop := sub.data <:+: s.data

/-- Helper: an element's characters are an infix of any `pyJoin` containing
it. -/
theorem data_infix_pyJoin (sep : String) (L : List String) (x : String)
    (hx : x ∈ L) : x.data <:+: (pyJoin sep L).data := by
  induction L with
  | nil => simp at hx
  | cons a t ih =>
    cases t with
    | nil =>
      have hxa : x = a := by simpa using hx
      subst hxa
      exact List.infix_rfl
    | cons b t2 =>
      rcases List.mem_cons.mp hx with hxa | hx2
      · subst hxa
        show x.data <:+: (x ++ sep ++ pyJoin sep (b :: t2)).data
        rw [String.data_append, String.data_append, List.append_assoc]
        exact List.IsPrefix.isInfix ( List.prefix_append _ _)
      · have hin := ih hx2
        show x.data <:+: (a ++ sep ++ pyJoin sep (b :: t2)).data
        rw [String.data_append, String.data_append]
        exact hin.trans ( List.IsSuffix.isInfix ( List.suffix_append _ _))

/-- Helper: once hits exist, the attached references block contains the
markdown link of every hit. -/
theorem attachReferences_contains (answer : String)
    (hits : List ArticleSearchHit) (h : ArticleSearchHit) (hmem : h ∈ hits) :
    containsSub (attachReferences answer hits)
      ("[" ++ h.title ++ "](wiki://" ++ h.id ++ ")") := by
  have hne : hits ≠ [] := List.ne_nil_of_mem hmem
  have hrefs : (if !hits.isEmpty then hits.map refLine else [])
      = hits.map refLine := by
    simp [List.isEmpty_iff, hne]
  have hmapne : hits.map refLine ≠ [] := by
    simp [List.isEmpty_iff, hne]
  unfold attachReferences
  rw [hrefs]
  have hfinal : (if !(hits.map refLine).isEmpty then
      pyStrip answer ++ "\n\nСсылки на статьи:\n"
        ++ pyJoin "\n" (hits.map refLine)
    else answer)
      = pyStrip answer ++ "\n\nСсылки на статьи:\n"
        ++ pyJoin "\n" (hits.map refLine) := by
    simp [List.isEmpty_iff, hmapne]
  rw [hfinal]
  unfold containsSub
  have hlink : ("[" ++ h.title ++ "](wiki://" ++ h.id ++ ")").data
      <:+: (refLine h).data := by
    show _ <:+: ("- [" ++ h.title ++ "](wiki://" ++ h.id ++ ")").data
    have : ("- [" ++ h.title ++ "](wiki://" ++ h.id ++ ")")
        = "- " ++ ("[" ++ h.title ++ "](wiki://" ++ h.id ++ ")") := by
      simp [String.ext_iff, String.data_append]
    rw [this, String.data_append]
    exact List.IsSuffix.isInfix ( List.suffix_append _ _)
  have hjoin : (refLine h).data <:+: (pyJoin "\n" (hits.map refLine)).data :=
    data_infix_pyJoin "\n" (hits.map refLine) (refLine h)
      (List.mem_map_of_mem refLine hmem)
  refine (hlink.trans hjoin).trans ?_
  rw [String.data_append]
  exact List.IsSuffix.isInfix ( List.suffix_append _ _)

/-- Helper: with no hits there is no references block. -/
theorem attachReferences_nil (answer : String) :
    attachReferences answer [] = answer := by
  simp [attachReferences]

/-- Helper: with no snippets the body is the fixed nothing-found message. -/
theorem answerBody_nil (creds : YandexCreds) (outcome : LLMOutcome) :
    answerBody creds [] outcome = "Не удалось найти релевантные статьи." := by
  simp [answerBody, answerContext, pyJoin, llmAnswer]

/-- C7: the `/articles/search/answer` response contains a markdown link
`[{title}](wiki://{id})` for every final hit whatever the synthesis call
did, and with no final hits it is the fixed non-empty nothing-found
message with no references section. -/
theorem answer_references_complete (db : List Article)
    (groups : List ArticleGroup) (dp tm : String) (creds : YandexCreds)
    (team_id : String) (req : SearchAnswerRequest)
    (idxHits : List (String × ℚ)) (rerankOutcome answerOutcome : LLMOutcome) :
    (∀ h ∈ search_answer_hits db groups dp tm creds team_id req idxHits
        rerankOutcome,
      containsSub (search_answer_text db groups dp tm creds team_id req
          idxHits rerankOutcome answerOutcome)
        ("[" ++ h.title ++ "](wiki://" ++ h.id ++ ")"))
    ∧ (search_answer_hits db groups dp tm creds team_id req idxHits
          rerankOutcome = [] →
        search_answer_text db groups dp tm creds team_id req idxHits
            rerankOutcome answerOutcome
          = "Не удалось найти релевантные статьи."
        ∧ "Не удалось найти релевантные статьи." ≠ ""
        ∧ ¬ containsSub (search_answer_text db groups dp tm creds team_id
            req idxHits rerankOutcome answerOutcome) "Ссылки на статьи:") := by
  constructor
  · intro h hmem
    exact attachReferences_contains _ _ h hmem
  · intro hnil
    have htext : search_answer_text db groups dp tm creds team_id req idxHits
        rerankOutcome answerOutcome
        = "Не удалось найти релевантные статьи." := by
      unfold search_answer_text
      rw [hnil]
      simp only [List.map_nil]
      rw [answerBody_nil, attachReferences_nil]
    refine ⟨htext, by decide, ?_⟩
    rw [htext]
    unfold containsSub
    decide

theorem answer_references_complete_witness :
    containsSub (search_answer_text [exArticle1] []
        "You are a helpful assistant" "yandexgpt-lite" ⟨false⟩ "t1"
        exAnswerReq [("a1", 1)] .transportError .transportError)
      ("[" ++ exHit1.title ++ "](wiki://" ++ exHit1.id ++ ")") :=
  (answer_references_complete [exArticle1] [] "You are a helpful assistant"
    "yandexgpt-lite" ⟨false⟩ "t1" exAnswerReq [("a1", 1)] .transportError
    .transportError).1 exHit1 (by decide)

/-- C10 (counterexample): for a response text none of whose whitespace
tokens matches a candidate id, the `if order:` guard makes the reranker
return its input unchanged — a non-empty list — while one hit per matching
token would be the empty list. -/
theorem rerank_no_match_counterexample :
    rerankOrder [exHit1] "hello" = []
    ∧ rerank_with_llm ⟨true⟩ "q" [exHit1] none "yandexgpt-lite"
        (.reply 200 (some "hello")) = [exHit1]
    ∧ [exHit1] ≠ ([] : List ArticleSearchHit) := by decide
